import Mathlib

/-!
Verification of the FreeRTOS AVR port layer (portable/GCC/ATmegaxxxx/port.c).

The port's context save/restore macros, the stack-frame builder, the tick-source
configurators and the interrupt entry points are shallowly embedded below.
Machine bytes are modelled as Nat values; 8-bit and 16-bit truncation is made
explicit with % 256 and % 65536 (the C code's & 0xff and (uint16_t) casts),
and the uint32 wrap of the compare-match computation with % 4294967296.
Data memory and the register file are total functions Nat -> Nat updated
pointwise; the hardware stack pointer grows downward, one byte per push,
exactly as on the AVR.
-/

set_option maxRecDepth 8000

/-- Pointwise store: the result of writing byte v at address a of memory m. -/
def wr (m : Nat → Nat) (a v : Nat) : Nat → Nat :=
  fun x => if x = a then v else m x

/-- AVR machine state as seen by the port layer: the 32 general registers
(r0 is the compiler's scratch register, r1 its zero register), the status
register SREG (bit 7 is the global interrupt-enable bit I), the 16-bit
hardware stack pointer, data memory, the value of the pxCurrentTCB
pointer, and the RAMPZ/EIND extension registers present on 3-byte-PC
devices. -/
structure Mach where
  r0 : Nat
  r1 : Nat
  r2 : Nat
  r3 : Nat
  r4 : Nat
  r5 : Nat
  r6 : Nat
  r7 : Nat
  r8 : Nat
  r9 : Nat
  r10 : Nat
  r11 : Nat
  r12 : Nat
  r13 : Nat
  r14 : Nat
  r15 : Nat
  r16 : Nat
  r17 : Nat
  r18 : Nat
  r19 : Nat
  r20 : Nat
  r21 : Nat
  r22 : Nat
  r23 : Nat
  r24 : Nat
  r25 : Nat
  r26 : Nat
  r27 : Nat
  r28 : Nat
  r29 : Nat
  r30 : Nat
  r31 : Nat
  sreg : Nat
  sp : Nat
  mem : Nat → Nat
  tcb : Nat
  rampz : Nat
  eind : Nat

/-- The value of general register number n. -/
def regVal (σ : Mach) : Nat → Nat
  | 0 => σ.r0
  | 1 => σ.r1
  | 2 => σ.r2
  | 3 => σ.r3
  | 4 => σ.r4
  | 5 => σ.r5
  | 6 => σ.r6
  | 7 => σ.r7
  | 8 => σ.r8
  | 9 => σ.r9
  | 10 => σ.r10
  | 11 => σ.r11
  | 12 => σ.r12
  | 13 => σ.r13
  | 14 => σ.r14
  | 15 => σ.r15
  | 16 => σ.r16
  | 17 => σ.r17
  | 18 => σ.r18
  | 19 => σ.r19
  | 20 => σ.r20
  | 21 => σ.r21
  | 22 => σ.r22
  | 23 => σ.r23
  | 24 => σ.r24
  | 25 => σ.r25
  | 26 => σ.r26
  | 27 => σ.r27
  | 28 => σ.r28
  | 29 => σ.r29
  | 30 => σ.r30
  | 31 => σ.r31
  | _ => 0

/-- Write general register number n (writes to a number above 31 are
dropped; no port instruction performs one). -/
def setReg (σ : Mach) : Nat → Nat → Mach
  | 0, v => { σ with r0 := v }
  | 1, v => { σ with r1 := v }
  | 2, v => { σ with r2 := v }
  | 3, v => { σ with r3 := v }
  | 4, v => { σ with r4 := v }
  | 5, v => { σ with r5 := v }
  | 6, v => { σ with r6 := v }
  | 7, v => { σ with r7 := v }
  | 8, v => { σ with r8 := v }
  | 9, v => { σ with r9 := v }
  | 10, v => { σ with r10 := v }
  | 11, v => { σ with r11 := v }
  | 12, v => { σ with r12 := v }
  | 13, v => { σ with r13 := v }
  | 14, v => { σ with r14 := v }
  | 15, v => { σ with r15 := v }
  | 16, v => { σ with r16 := v }
  | 17, v => { σ with r17 := v }
  | 18, v => { σ with r18 := v }
  | 19, v => { σ with r19 := v }
  | 20, v => { σ with r20 := v }
  | 21, v => { σ with r21 := v }
  | 22, v => { σ with r22 := v }
  | 23, v => { σ with r23 := v }
  | 24, v => { σ with r24 := v }
  | 25, v => { σ with r25 := v }
  | 26, v => { σ with r26 := v }
  | 27, v => { σ with r27 := v }
  | 28, v => { σ with r28 := v }
  | 29, v => { σ with r29 := v }
  | 30, v => { σ with r30 := v }
  | 31, v => { σ with r31 := v }
  | _, _ => σ

/-- Address held in the X pointer register pair (r26 low, r27 high). -/
def xAddr (σ : Mach) : Nat := σ.r26 + 256 * σ.r27

/-- AVR push: store at the address in SP, then decrement SP. -/
def push (σ : Mach) (v : Nat) : Mach :=
  { σ with mem := wr σ.mem σ.sp v, sp := σ.sp - 1 }

/-- AVR pop into register n: increment SP, then load from the address in SP. -/
def popTo (σ : Mach) (n : Nat) : Mach :=
  setReg { σ with sp := σ.sp + 1 } n (σ.mem (σ.sp + 1))

/-- The instructions appearing in the portSAVE_CONTEXT() asm blocks. -/
inductive SaveInstr where
  | pushReg : Nat → SaveInstr     -- push rN (r0 = __tmp_reg__, r1 = __zero_reg__)
  | inSREG : SaveInstr            -- in __tmp_reg__, __SREG__
  | cli : SaveInstr               -- cli
  | inRAMPZ : SaveInstr           -- in __tmp_reg__, 0x3B
  | inEIND : SaveInstr            -- in __tmp_reg__, 0x3C
  | clrZero : SaveInstr           -- clr __zero_reg__
  | ldsTCBlo : SaveInstr          -- lds r26, pxCurrentTCB
  | ldsTCBhi : SaveInstr          -- lds r27, pxCurrentTCB + 1
  | inSPL : SaveInstr             -- in __tmp_reg__, __SP_L__
  | inSPH : SaveInstr             -- in __tmp_reg__, __SP_H__
  | stXinc : SaveInstr            -- st x+, __tmp_reg__
  deriving DecidableEq

/-- Effect of one save-sequence instruction on the machine state.
cli clears bit 7 of SREG; the st x+ instruction stores r0 at the byte
address held in X and then performs the 16-bit increment of the pair. -/
def execSave (σ : Mach) : SaveInstr → Mach
  | .pushReg n => push σ (regVal σ n)
  | .inSREG => setReg σ 0 σ.sreg
  | .cli => { σ with sreg := σ.sreg &&& 127 }
  | .inRAMPZ => setReg σ 0 σ.rampz
  | .inEIND => setReg σ 0 σ.eind
  | .clrZero => setReg σ 1 0
  | .ldsTCBlo => setReg σ 26 (σ.tcb % 256)
  | .ldsTCBhi => setReg σ 27 (σ.tcb / 256 % 256)
  | .inSPL => setReg σ 0 (σ.sp % 256)
  | .inSPH => setReg σ 0 (σ.sp / 256 % 256)
  | .stXinc =>
      let a := xAddr σ
      setReg (setReg { σ with mem := wr σ.mem a σ.r0 } 26 ((a + 1) % 256))
        27 ((a + 1) / 256 % 256)

/-- The 2-byte-PC portSAVE_CONTEXT() instruction sequence, transcribed
instruction for instruction from the asm block. -/
def saveProg2 : List SaveInstr :=
  [.pushReg 0, .inSREG, .cli, .pushReg 0,
   .pushReg 1, .clrZero,
   .pushReg 2, .pushReg 3, .pushReg 4, .pushReg 5, .pushReg 6, .pushReg 7,
   .pushReg 8, .pushReg 9, .pushReg 10, .pushReg 11, .pushReg 12, .pushReg 13,
   .pushReg 14, .pushReg 15, .pushReg 16, .pushReg 17, .pushReg 18, .pushReg 19,
   .pushReg 20, .pushReg 21, .pushReg 22, .pushReg 23, .pushReg 24, .pushReg 25,
   .pushReg 26, .pushReg 27, .pushReg 28, .pushReg 29, .pushReg 30, .pushReg 31,
   .ldsTCBlo, .ldsTCBhi, .inSPL, .stXinc, .inSPH, .stXinc]

/-- The 3-byte-PC portSAVE_CONTEXT() instruction sequence (the variant that
additionally saves RAMPZ then EIND right after the status register). -/
def saveProg3 : List SaveInstr :=
  [.pushReg 0, .inSREG, .cli, .pushReg 0,
   .inRAMPZ, .pushReg 0, .inEIND, .pushReg 0,
   .pushReg 1, .clrZero,
   .pushReg 2, .pushReg 3, .pushReg 4, .pushReg 5, .pushReg 6, .pushReg 7,
   .pushReg 8, .pushReg 9, .pushReg 10, .pushReg 11, .pushReg 12, .pushReg 13,
   .pushReg 14, .pushReg 15, .pushReg 16, .pushReg 17, .pushReg 18, .pushReg 19,
   .pushReg 20, .pushReg 21, .pushReg 22, .pushReg 23, .pushReg 24, .pushReg 25,
   .pushReg 26, .pushReg 27, .pushReg 28, .pushReg 29, .pushReg 30, .pushReg 31,
   .ldsTCBlo, .ldsTCBhi, .inSPL, .stXinc, .inSPH, .stXinc]

/-- Semantics of the 2-byte-PC portSAVE_CONTEXT() macro. -/
def portSAVE_CONTEXT2 (σ : Mach) : Mach := saveProg2.foldl execSave σ

/-- Semantics of the 3-byte-PC portSAVE_CONTEXT() macro. -/
def portSAVE_CONTEXT3 (σ : Mach) : Mach := saveProg3.foldl execSave σ

/-- The instructions appearing in the portRESTORE_CONTEXT() asm blocks. -/
inductive RestoreInstr where
  | ldsTCBlo : RestoreInstr         -- lds r26, pxCurrentTCB
  | ldsTCBhi : RestoreInstr         -- lds r27, pxCurrentTCB + 1
  | ldXinc : Nat → RestoreInstr     -- ld rN, x+
  | outSPL : Nat → RestoreInstr     -- out __SP_L__, rN
  | outSPH : Nat → RestoreInstr     -- out __SP_H__, rN
  | popReg : Nat → RestoreInstr     -- pop rN
  | outSREG : RestoreInstr          -- out __SREG__, __tmp_reg__
  | outEIND : RestoreInstr          -- out 0x3C, __tmp_reg__
  | outRAMPZ : RestoreInstr         -- out 0x3B, __tmp_reg__
  deriving DecidableEq

/-- Effect of one restore-sequence instruction.  The out instructions
write one hardware byte, hence the % 256; ld rN, x+ loads from the byte
address in X and then performs the 16-bit increment of the pair. -/
def execRest (σ : Mach) : RestoreInstr → Mach
  | .ldsTCBlo => setReg σ 26 (σ.tcb % 256)
  | .ldsTCBhi => setReg σ 27 (σ.tcb / 256 % 256)
  | .ldXinc n =>
      let a := xAddr σ
      setReg (setReg (setReg σ n (σ.mem a)) 26 ((a + 1) % 256)) 27 ((a + 1) / 256 % 256)
  | .outSPL n => { σ with sp := σ.sp - σ.sp % 256 + regVal σ n % 256 }
  | .outSPH n => { σ with sp := σ.sp % 256 + 256 * (regVal σ n % 256) }
  | .popReg n => popTo σ n
  | .outSREG => { σ with sreg := σ.r0 % 256 }
  | .outEIND => { σ with eind := σ.r0 % 256 }
  | .outRAMPZ => { σ with rampz := σ.r0 % 256 }

/-- The first six instructions of both portRESTORE_CONTEXT() variants:
load X with pxCurrentTCB, fetch the stack-pointer low byte from offset 0
of the TCB into r28 and write it to SP_L, then the high byte from offset
1 into r29 and write it to SP_H. -/
def restLoadProg : List RestoreInstr :=
  [.ldsTCBlo, .ldsTCBhi, .ldXinc 28, .outSPL 28, .ldXinc 29, .outSPH 29]

/-- The pop half of the 2-byte-PC portRESTORE_CONTEXT(): pop r31 down to
r2, pop the zero register, pop the saved flags byte into r0 and write it
to SREG, then pop r0 itself. -/
def restPopProg2 : List RestoreInstr :=
  [.popReg 31, .popReg 30, .popReg 29, .popReg 28, .popReg 27, .popReg 26,
   .popReg 25, .popReg 24, .popReg 23, .popReg 22, .popReg 21, .popReg 20,
   .popReg 19, .popReg 18, .popReg 17, .popReg 16, .popReg 15, .popReg 14,
   .popReg 13, .popReg 12, .popReg 11, .popReg 10, .popReg 9, .popReg 8,
   .popReg 7, .popReg 6, .popReg 5, .popReg 4, .popReg 3, .popReg 2,
   .popReg 1, .popReg 0, .outSREG, .popReg 0]

/-- The pop half of the 3-byte-PC portRESTORE_CONTEXT(): as the 2-byte
variant but restoring EIND (out 0x3C) and then RAMPZ (out 0x3B) between
the zero register and the flags byte. -/
def restPopProg3 : List RestoreInstr :=
  [.popReg 31, .popReg 30, .popReg 29, .popReg 28, .popReg 27, .popReg 26,
   .popReg 25, .popReg 24, .popReg 23, .popReg 22, .popReg 21, .popReg 20,
   .popReg 19, .popReg 18, .popReg 17, .popReg 16, .popReg 15, .popReg 14,
   .popReg 13, .popReg 12, .popReg 11, .popReg 10, .popReg 9, .popReg 8,
   .popReg 7, .popReg 6, .popReg 5, .popReg 4, .popReg 3, .popReg 2,
   .popReg 1, .popReg 0, .outEIND, .popReg 0, .outRAMPZ, .popReg 0,
   .outSREG, .popReg 0]

/-- Semantics of the 2-byte-PC portRESTORE_CONTEXT() macro. -/
def portRESTORE_CONTEXT2 (σ : Mach) : Mach :=
  (restLoadProg ++ restPopProg2).foldl execRest σ

/-- Semantics of the 3-byte-PC portRESTORE_CONTEXT() macro. -/
def portRESTORE_CONTEXT3 (σ : Mach) : Mach :=
  (restLoadProg ++ restPopProg3).foldl execRest σ

/-- Simulated 2-byte subroutine return, as performed by the ret at the end
of vPortYield / xPortStartScheduler: pop the high then the low byte of the
return address and form the program counter. -/
def retSim2 (σ : Mach) : Mach × Nat :=
  let hi := σ.mem (σ.sp + 1)
  let lo := σ.mem (σ.sp + 2)
  ({ σ with sp := σ.sp + 2 }, lo + 256 * hi)

/- ------------------------------------------------------------------ -/
/- pxPortInitialiseStack.                                              -/
/- ------------------------------------------------------------------ -/

/-- Start tasks with interrupts enabled: bit 7 (the I bit) of SREG. -/
def portFLAGS_INT_ENABLED : Nat := 0x80

/-- Apply a list of (address, value) stores to a memory image, first
element first. -/
def wrList (mem : Nat → Nat) (l : List (Nat × Nat)) : Nat → Nat :=
  l.foldl (fun m av => wr m av.1 av.2) mem

/-- pxPortInitialiseStack for 2-byte-PC devices, transcribed write for
write from the source.  The function decrements the stack-top pointer
after every byte, so the k-th write lands at pxTopOfStack - k; the
(uint16_t) cast of the entry point and of the parameter is % 65536, and
the C >>= 8 and & 0xff are / 256 and % 256.  It returns the written
memory together with the adjusted top-of-stack address. -/
def pxPortInitialiseStack2 (mem : Nat → Nat) (pxTopOfStack pxCode pvParameters : Nat) :
    (Nat → Nat) × Nat :=
  (wrList mem
    [(pxTopOfStack, 0x11), (pxTopOfStack - 1, 0x22), (pxTopOfStack - 2, 0x33),
     (pxTopOfStack - 3, pxCode % 65536 % 256),
     (pxTopOfStack - 4, pxCode % 65536 / 256 % 256),
     (pxTopOfStack - 5, 0x00),                       -- R0
     (pxTopOfStack - 6, portFLAGS_INT_ENABLED),
     (pxTopOfStack - 7, 0x00),                       -- R1
     (pxTopOfStack - 8, 0x02), (pxTopOfStack - 9, 0x03),
     (pxTopOfStack - 10, 0x04), (pxTopOfStack - 11, 0x05),
     (pxTopOfStack - 12, 0x06), (pxTopOfStack - 13, 0x07),
     (pxTopOfStack - 14, 0x08), (pxTopOfStack - 15, 0x09),
     (pxTopOfStack - 16, 0x10), (pxTopOfStack - 17, 0x11),
     (pxTopOfStack - 18, 0x12), (pxTopOfStack - 19, 0x13),
     (pxTopOfStack - 20, 0x14), (pxTopOfStack - 21, 0x15),
     (pxTopOfStack - 22, 0x16), (pxTopOfStack - 23, 0x17),
     (pxTopOfStack - 24, 0x18), (pxTopOfStack - 25, 0x19),
     (pxTopOfStack - 26, 0x20), (pxTopOfStack - 27, 0x21),
     (pxTopOfStack - 28, 0x22), (pxTopOfStack - 29, 0x23),
     (pxTopOfStack - 30, pvParameters % 65536 % 256),        -- R24
     (pxTopOfStack - 31, pvParameters % 65536 / 256 % 256),  -- R25
     (pxTopOfStack - 32, 0x26), (pxTopOfStack - 33, 0x27),
     (pxTopOfStack - 34, 0x28), (pxTopOfStack - 35, 0x29),
     (pxTopOfStack - 36, 0x30), (pxTopOfStack - 37, 0x031)],
   pxTopOfStack - 38)

/-- pxPortInitialiseStack for 3-byte-PC devices: as the 2-byte variant
but with a forced-zero top address byte after the two entry-address
bytes, and zeroed EIND and RAMPZ bytes after the flags byte. -/
def pxPortInitialiseStack3 (mem : Nat → Nat) (pxTopOfStack pxCode pvParameters : Nat) :
    (Nat → Nat) × Nat :=
  (wrList mem
    [(pxTopOfStack, 0x11), (pxTopOfStack - 1, 0x22), (pxTopOfStack - 2, 0x33),
     (pxTopOfStack - 3, pxCode % 65536 % 256),
     (pxTopOfStack - 4, pxCode % 65536 / 256 % 256),
     (pxTopOfStack - 5, 0),                          -- forced-zero address byte
     (pxTopOfStack - 6, 0x00),                       -- R0
     (pxTopOfStack - 7, portFLAGS_INT_ENABLED),
     (pxTopOfStack - 8, 0x00),                       -- EIND
     (pxTopOfStack - 9, 0x00),                       -- RAMPZ
     (pxTopOfStack - 10, 0x00),                      -- R1
     (pxTopOfStack - 11, 0x02), (pxTopOfStack - 12, 0x03),
     (pxTopOfStack - 13, 0x04), (pxTopOfStack - 14, 0x05),
     (pxTopOfStack - 15, 0x06), (pxTopOfStack - 16, 0x07),
     (pxTopOfStack - 17, 0x08), (pxTopOfStack - 18, 0x09),
     (pxTopOfStack - 19, 0x10), (pxTopOfStack - 20, 0x11),
     (pxTopOfStack - 21, 0x12), (pxTopOfStack - 22, 0x13),
     (pxTopOfStack - 23, 0x14), (pxTopOfStack - 24, 0x15),
     (pxTopOfStack - 25, 0x16), (pxTopOfStack - 26, 0x17),
     (pxTopOfStack - 27, 0x18), (pxTopOfStack - 28, 0x19),
     (pxTopOfStack - 29, 0x20), (pxTopOfStack - 30, 0x21),
     (pxTopOfStack - 31, 0x22), (pxTopOfStack - 32, 0x23),
     (pxTopOfStack - 33, pvParameters % 65536 % 256),        -- R24
     (pxTopOfStack - 34, pvParameters % 65536 / 256 % 256),  -- R25
     (pxTopOfStack - 35, 0x26), (pxTopOfStack - 36, 0x27),
     (pxTopOfStack - 37, 0x28), (pxTopOfStack - 38, 0x29),
     (pxTopOfStack - 39, 0x30), (pxTopOfStack - 40, 0x031)],
   pxTopOfStack - 41)

/-- A running task whose machine state matches what the frame builder
lays down: the builder's debug-marker register values, a zero scratch
and zero register, the initial parameter's bytes in the r25:r24 argument
pair of the avr-gcc calling convention, interrupts enabled, zero RAMPZ
and EIND, an all-zero memory, and a given stack pointer and TCB
address. -/
def freshMach (pvParameters spInit tcbAddr : Nat) : Mach :=
  { r0 := 0, r1 := 0,
    r2 := 0x02, r3 := 0x03, r4 := 0x04, r5 := 0x05, r6 := 0x06, r7 := 0x07,
    r8 := 0x08, r9 := 0x09, r10 := 0x10, r11 := 0x11, r12 := 0x12, r13 := 0x13,
    r14 := 0x14, r15 := 0x15, r16 := 0x16, r17 := 0x17, r18 := 0x18, r19 := 0x19,
    r20 := 0x20, r21 := 0x21, r22 := 0x22, r23 := 0x23,
    r24 := pvParameters % 65536 % 256,
    r25 := pvParameters % 65536 / 256 % 256,
    r26 := 0x26, r27 := 0x27, r28 := 0x28, r29 := 0x29, r30 := 0x30, r31 := 0x031,
    sreg := portFLAGS_INT_ENABLED, sp := spInit,
    mem := fun _ => 0, tcb := tcbAddr, rampz := 0, eind := 0 }

/-- The concrete boot scenario for the round-trip check: a frame is built
at stack top 2000, its returned top-of-stack address is stored (low byte
at offset 0, high byte at offset 1) in the stack-pointer field of a TCB
at address 5000, and the machine is otherwise blank. -/
def c1Boot (pxCode pvParameters : Nat) : Mach :=
  { r0 := 0, r1 := 0, r2 := 0, r3 := 0, r4 := 0, r5 := 0, r6 := 0, r7 := 0,
    r8 := 0, r9 := 0, r10 := 0, r11 := 0, r12 := 0, r13 := 0, r14 := 0, r15 := 0,
    r16 := 0, r17 := 0, r18 := 0, r19 := 0, r20 := 0, r21 := 0, r22 := 0, r23 := 0,
    r24 := 0, r25 := 0, r26 := 0, r27 := 0, r28 := 0, r29 := 0, r30 := 0, r31 := 0,
    sreg := 0, sp := 500,
    mem := wr (wr (pxPortInitialiseStack2 (fun _ => 0) 2000 pxCode pvParameters).1
                  5000 ((pxPortInitialiseStack2 (fun _ => 0) 2000 pxCode pvParameters).2 % 256))
              5001 ((pxPortInitialiseStack2 (fun _ => 0) 2000 pxCode pvParameters).2 / 256 % 256),
    tcb := 5000, rampz := 0, eind := 0 }

/-- The machine after the very first portRESTORE_CONTEXT() of the task of
the boot scenario. -/
def c1Restored (pxCode pvParameters : Nat) : Mach :=
  portRESTORE_CONTEXT2 (c1Boot pxCode pvParameters)

/- ------------------------------------------------------------------ -/
/- Tick source configuration (prvSetupTimerInterrupt and friends).     -/
/- ------------------------------------------------------------------ -/

/-- portCLOCK_PRESCALER for the Timer0 compare-match source. -/
def portCLOCK_PRESCALER : Nat := 1024

/-- Result state of the Timer0 variant of prvSetupTimerInterrupt: the
byte written to OCR0A, the two timer control registers, the bit OR-ed
into TIMSK, and the two port-owned variables it assigns. -/
structure Timer0Setup where
  ocr : Nat
  tccra : Nat
  tccrb : Nat
  timskOrBit : Nat
  portTickRateHz : Nat
  ticksRemainingInSec : Nat

/-- ulCompareMatch after the two divisions (uint32 arithmetic; values are
in range whenever clock < 2^32, so plain Nat division is faithful). -/
def ulCompareMatch (clock rate : Nat) : Nat := clock / rate / portCLOCK_PRESCALER

/-- The Timer0 compare-match variant of prvSetupTimerInterrupt.  The
subtraction ulCompareMatch -= 1 is uint32 arithmetic, hence the wrap
modulo 2^32; the & 0xff cast to uint8 is % 256. -/
def prvSetupTimerInterruptTimer0 (clock rate : Nat) : Timer0Setup :=
  let cm := ulCompareMatch clock rate
  let tick := clock / (portCLOCK_PRESCALER * cm)
  let cmAdj := (cm + 4294967295) % 4294967296
  { ocr := cmAdj % 256
    tccra := 2            -- _BV(WGM01), clear counter on compare match
    tccrb := 5            -- _BV(CS02) | _BV(CS00), prescaler 1024
    timskOrBit := 2       -- _BV(OCIE0A)
    portTickRateHz := tick
    ticksRemainingInSec := tick }

/-- Bit positions of the AVR watchdog control register WDTCSR, as defined
by the avr-libc headers the source includes. -/
def WDIF : Nat := 7
def WDIE : Nat := 6
def WDP3 : Nat := 5
def WDCE : Nat := 4
def WDE : Nat := 3

/-- The timed-sequence prelude byte wdt_interrupt_enable writes first:
_BV(_WD_CHANGE_BIT) | _BV(WDE). -/
def wdtPrepValue : Nat := 2 ^ WDCE ||| 2 ^ WDE

/-- The configuration byte wdt_interrupt_enable writes second (and which
persists in WDTCSR): prescaler bits from value, WDIF, WDIE — and no WDE. -/
def wdtControlValue (value : Nat) : Nat :=
  (if value &&& 8 ≠ 0 then 2 ^ WDP3 else 0) ||| 2 ^ WDIF ||| 2 ^ WDIE ||| (value &&& 7)

/-- The two bytes wdt_interrupt_enable writes to the watchdog control
register, in order. -/
def wdt_interrupt_enable_writes (value : Nat) : List Nat :=
  [wdtPrepValue, wdtControlValue value]

/-- Result state of the watchdog variant of prvSetupTimerInterrupt. -/
structure WdtSetup where
  portTickRateHz : Nat
  ticksRemainingInSec : Nat
  wdtFinal : Nat

/-- The watchdog (portUSE_WDTO) variant of prvSetupTimerInterrupt:
portTickRateHz := configTICK_RATE_HZ, ticksRemainingInSec := that, and
the watchdog is put in interrupt mode via wdt_interrupt_enable. -/
def prvSetupTimerInterruptWDTO (cfgTickRateHz wdtoValue : Nat) : WdtSetup :=
  { portTickRateHz := cfgTickRateHz
    ticksRemainingInSec := cfgTickRateHz
    wdtFinal := wdtControlValue wdtoValue }

/-- Modelled from the spec: the per-tick update of the port-owned counter
ticksRemainingInSec.  The counter's declaration and its initialization to
portTickRateHz are in port.c, but the code that consumes it each tick is
not part of this repository's sources; the spec states it is
"decremented per tick" and "reset to the tick frequency each time it
reaches zero". -/
def ticksRemainingStep (rate remaining : Nat) : Nat :=
  let r := remaining - 1
  if r = 0 then rate else r

/- ------------------------------------------------------------------ -/
/- Interrupt entry points (vPortYieldFromTick, the scheduler ISR).     -/
/- ------------------------------------------------------------------ -/

/-- The externally visible kernel operations the port's entry points
invoke, in the order they appear. -/
inductive KernelCall where
  | saveCtx : KernelCall       -- portSAVE_CONTEXT()
  | incTick : KernelCall       -- xTaskIncrementTick()
  | switchCtx : KernelCall     -- vTaskSwitchContext()
  | restoreCtx : KernelCall    -- portRESTORE_CONTEXT()
  | retSub : KernelCall        -- asm ret
  | retInt : KernelCall        -- asm reti
  deriving DecidableEq

/-- pdFALSE, the kernel's boolean false. -/
def pdFALSE : Int := 0

/-- Call sequence of vPortYieldFromTick(), parametrized by the value
xTaskIncrementTick() returns: save, increment the tick, switch context
only when the return value differs from pdFALSE, restore, ret. -/
def vPortYieldFromTickCalls (r : Int) : List KernelCall :=
  [.saveCtx, .incTick] ++
  (if r ≠ pdFALSE then [.switchCtx] else []) ++
  [.restoreCtx, .retSub]

/-- Call sequence of ISR(portSCHEDULER_ISR) in a preemptive build
(configUSE_PREEMPTION == 1): vPortYieldFromTick() then reti. -/
def schedulerISRPreemptive (r : Int) : List KernelCall :=
  vPortYieldFromTickCalls r ++ [.retInt]

/-- Call sequence of ISR(portSCHEDULER_ISR) in a cooperative build: it
only calls xTaskIncrementTick(), whatever that call returns. -/
def schedulerISRCooperative (_r : Int) : List KernelCall :=
  [.incTick]

def pushedVal2 (σ : Mach) : Nat → Nat
  | 0 => σ.r0
  | 1 => σ.sreg
  | 2 => σ.r1
  | 3 => σ.r2
  | 4 => σ.r3
  | 5 => σ.r4
  | 6 => σ.r5
  | 7 => σ.r6
  | 8 => σ.r7
  | 9 => σ.r8
  | 10 => σ.r9
  | 11 => σ.r10
  | 12 => σ.r11
  | 13 => σ.r12
  | 14 => σ.r13
  | 15 => σ.r14
  | 16 => σ.r15
  | 17 => σ.r16
  | 18 => σ.r17
  | 19 => σ.r18
  | 20 => σ.r19
  | 21 => σ.r20
  | 22 => σ.r21
  | 23 => σ.r22
  | 24 => σ.r23
  | 25 => σ.r24
  | 26 => σ.r25
  | 27 => σ.r26
  | 28 => σ.r27
  | 29 => σ.r28
  | 30 => σ.r29
  | 31 => σ.r30
  | 32 => σ.r31
  | _ => 0

def pushedVal3 (σ : Mach) : Nat → Nat
  | 0 => σ.r0
  | 1 => σ.sreg
  | 2 => σ.rampz
  | 3 => σ.eind
  | 4 => σ.r1
  | 5 => σ.r2
  | 6 => σ.r3
  | 7 => σ.r4
  | 8 => σ.r5
  | 9 => σ.r6
  | 10 => σ.r7
  | 11 => σ.r8
  | 12 => σ.r9
  | 13 => σ.r10
  | 14 => σ.r11
  | 15 => σ.r12
  | 16 => σ.r13
  | 17 => σ.r14
  | 18 => σ.r15
  | 19 => σ.r16
  | 20 => σ.r17
  | 21 => σ.r18
  | 22 => σ.r19
  | 23 => σ.r20
  | 24 => σ.r21
  | 25 => σ.r22
  | 26 => σ.r23
  | 27 => σ.r24
  | 28 => σ.r25
  | 29 => σ.r26
  | 30 => σ.r27
  | 31 => σ.r28
  | 32 => σ.r29
  | 33 => σ.r30
  | 34 => σ.r31
  | _ => 0

def isGPRpush : SaveInstr → Bool
  | .pushReg n => decide (2 ≤ n)
  | _ => false

def σw : Mach :=
  { r0 := 7, r1 := 13, r2 := 21, r3 := 3, r4 := 44, r5 := 55, r6 := 6, r7 := 77,
    r8 := 8, r9 := 99, r10 := 110, r11 := 11, r12 := 121, r13 := 31, r14 := 41, r15 := 51,
    r16 := 61, r17 := 71, r18 := 81, r19 := 91, r20 := 102, r21 := 112, r22 := 122, r23 := 132,
    r24 := 142, r25 := 152, r26 := 162, r27 := 172, r28 := 182, r29 := 192, r30 := 202, r31 := 212,
    sreg := 131, sp := 1000, mem := fun _ => 0, tcb := 2000, rampz := 1, eind := 2 }


/- ------------------------------------------------------------------ -/
/- Theorems.                                                           -/
/- ------------------------------------------------------------------ -/

set_option maxHeartbeats 2000000

theorem wr_same (m : Nat → Nat) (a v : Nat) : wr m a v a = v := by
  simp [wr]

theorem wr_other (m : Nat → Nat) (a v x : Nat) (h : x ≠ a) : wr m a v x = m x := by
  simp [wr, h]

theorem wr_apply (m : Nat → Nat) (a v x : Nat) :
    wr m a v x = if x = a then v else m x := rfl

theorem wrList_nil (mem : Nat → Nat) : wrList mem [] = mem := rfl

theorem wrList_cons (mem : Nat → Nat) (a v : Nat) (l : List (Nat × Nat)) :
    wrList mem ((a, v) :: l) = wrList (wr mem a v) l := rfl

theorem save2_sp (σ : Mach) : (portSAVE_CONTEXT2 σ).sp = σ.sp - 33 := by
  simp only [portSAVE_CONTEXT2, saveProg2, List.foldl_cons, List.foldl_nil,
             execSave, push, setReg, regVal, xAddr]
  omega

theorem save3_sp (σ : Mach) : (portSAVE_CONTEXT3 σ).sp = σ.sp - 35 := by
  simp only [portSAVE_CONTEXT3, saveProg3, List.foldl_cons, List.foldl_nil,
             execSave, push, setReg, regVal, xAddr]
  omega

theorem save2_mem_push (σ : Mach) (h1 : 33 ≤ σ.sp)
    (h3 : σ.tcb + 1 < 65536) (h4 : σ.sp < σ.tcb ∨ σ.tcb + 33 < σ.sp) :
    ∀ k, k ≤ 32 → (portSAVE_CONTEXT2 σ).mem (σ.sp - k) = pushedVal2 σ k := by
  simp only [portSAVE_CONTEXT2, saveProg2, List.foldl_cons, List.foldl_nil,
             execSave, push, setReg, regVal, xAddr]
  intro k hk
  interval_cases k <;>
    (simp only [pushedVal2]
     repeat (rw [wr_apply]; rw [if_neg (by omega)])
     rw [wr_apply, if_pos (by omega)])

theorem save3_mem_push (σ : Mach) (h1 : 35 ≤ σ.sp)
    (h3 : σ.tcb + 1 < 65536) (h4 : σ.sp < σ.tcb ∨ σ.tcb + 35 < σ.sp) :
    ∀ k, k ≤ 34 → (portSAVE_CONTEXT3 σ).mem (σ.sp - k) = pushedVal3 σ k := by
  simp only [portSAVE_CONTEXT3, saveProg3, List.foldl_cons, List.foldl_nil,
             execSave, push, setReg, regVal, xAddr]
  intro k hk
  interval_cases k <;>
    (simp only [pushedVal3]
     repeat (rw [wr_apply]; rw [if_neg (by omega)])
     rw [wr_apply, if_pos (by omega)])

theorem save2_tcbmem (σ : Mach) (h3 : σ.tcb + 1 < 65536) :
    (portSAVE_CONTEXT2 σ).mem σ.tcb = (σ.sp - 33) % 256 ∧
    (portSAVE_CONTEXT2 σ).mem (σ.tcb + 1) = (σ.sp - 33) / 256 % 256 ∧
    (portSAVE_CONTEXT2 σ).sp = σ.sp - 33 ∧
    (portSAVE_CONTEXT2 σ).tcb = σ.tcb := by
  simp only [portSAVE_CONTEXT2, saveProg2, List.foldl_cons, List.foldl_nil,
             execSave, push, setReg, regVal, xAddr]
  refine ⟨?_, ?_, by omega, by trivial⟩
  · rw [wr_apply, if_neg (by omega), wr_apply, if_pos (by omega)]; omega
  · rw [wr_apply, if_pos (by omega)]; omega

theorem restLoad_fields (σ : Mach) (h3 : σ.tcb + 1 < 65536) :
    (restLoadProg.foldl execRest σ).sp
        = σ.mem σ.tcb % 256 + 256 * (σ.mem (σ.tcb + 1) % 256) ∧
    (restLoadProg.foldl execRest σ).mem = σ.mem ∧
    (restLoadProg.foldl execRest σ).sreg = σ.sreg ∧
    (restLoadProg.foldl execRest σ).tcb = σ.tcb := by
  have e1 : σ.tcb % 256 + 256 * (σ.tcb / 256 % 256) = σ.tcb := by omega
  simp only [restLoadProg, List.foldl_cons, List.foldl_nil, execRest, popTo,
             setReg, regVal, xAddr]
  rw [e1]
  have e2 : (σ.tcb + 1) % 256 + 256 * ((σ.tcb + 1) / 256 % 256) = σ.tcb + 1 := by omega
  rw [e2]
  refine ⟨?_, ?_, ?_, ?_⟩ <;> first | trivial | omega

theorem restPops2_fields (σ : Mach) :
    (restPopProg2.foldl execRest σ).r31 = σ.mem (σ.sp + 1) ∧
    (restPopProg2.foldl execRest σ).r30 = σ.mem (σ.sp + 2) ∧
    (restPopProg2.foldl execRest σ).r29 = σ.mem (σ.sp + 3) ∧
    (restPopProg2.foldl execRest σ).r28 = σ.mem (σ.sp + 4) ∧
    (restPopProg2.foldl execRest σ).r27 = σ.mem (σ.sp + 5) ∧
    (restPopProg2.foldl execRest σ).r26 = σ.mem (σ.sp + 6) ∧
    (restPopProg2.foldl execRest σ).r25 = σ.mem (σ.sp + 7) ∧
    (restPopProg2.foldl execRest σ).r24 = σ.mem (σ.sp + 8) ∧
    (restPopProg2.foldl execRest σ).r23 = σ.mem (σ.sp + 9) ∧
    (restPopProg2.foldl execRest σ).r22 = σ.mem (σ.sp + 10) ∧
    (restPopProg2.foldl execRest σ).r21 = σ.mem (σ.sp + 11) ∧
    (restPopProg2.foldl execRest σ).r20 = σ.mem (σ.sp + 12) ∧
    (restPopProg2.foldl execRest σ).r19 = σ.mem (σ.sp + 13) ∧
    (restPopProg2.foldl execRest σ).r18 = σ.mem (σ.sp + 14) ∧
    (restPopProg2.foldl execRest σ).r17 = σ.mem (σ.sp + 15) ∧
    (restPopProg2.foldl execRest σ).r16 = σ.mem (σ.sp + 16) ∧
    (restPopProg2.foldl execRest σ).r15 = σ.mem (σ.sp + 17) ∧
    (restPopProg2.foldl execRest σ).r14 = σ.mem (σ.sp + 18) ∧
    (restPopProg2.foldl execRest σ).r13 = σ.mem (σ.sp + 19) ∧
    (restPopProg2.foldl execRest σ).r12 = σ.mem (σ.sp + 20) ∧
    (restPopProg2.foldl execRest σ).r11 = σ.mem (σ.sp + 21) ∧
    (restPopProg2.foldl execRest σ).r10 = σ.mem (σ.sp + 22) ∧
    (restPopProg2.foldl execRest σ).r9 = σ.mem (σ.sp + 23) ∧
    (restPopProg2.foldl execRest σ).r8 = σ.mem (σ.sp + 24) ∧
    (restPopProg2.foldl execRest σ).r7 = σ.mem (σ.sp + 25) ∧
    (restPopProg2.foldl execRest σ).r6 = σ.mem (σ.sp + 26) ∧
    (restPopProg2.foldl execRest σ).r5 = σ.mem (σ.sp + 27) ∧
    (restPopProg2.foldl execRest σ).r4 = σ.mem (σ.sp + 28) ∧
    (restPopProg2.foldl execRest σ).r3 = σ.mem (σ.sp + 29) ∧
    (restPopProg2.foldl execRest σ).r2 = σ.mem (σ.sp + 30) ∧
    (restPopProg2.foldl execRest σ).r1 = σ.mem (σ.sp + 31) ∧
    (restPopProg2.foldl execRest σ).r0 = σ.mem (σ.sp + 33) ∧
    (restPopProg2.foldl execRest σ).sreg = σ.mem (σ.sp + 32) % 256 ∧
    (restPopProg2.foldl execRest σ).sp = σ.sp + 33 ∧
    (restPopProg2.foldl execRest σ).mem = σ.mem ∧
    (restPopProg2.foldl execRest σ).tcb = σ.tcb := by
  simp only [restPopProg2, List.foldl_cons, List.foldl_nil, execRest, popTo,
             setReg, regVal, Nat.add_assoc, Nat.reduceAdd]
  repeat constructor

/-- Claim C1: building a 2-byte-PC stack frame with pxPortInitialiseStack
(at stack top 2000, TCB at 5000) and then performing portRESTORE_CONTEXT on
that frame followed by a simulated subroutine return lands execution at the
task entry point, with the parameter low byte in r24 and high byte in r25
(the avr-gcc incoming-argument registers), and with the interrupt-enable
bit (bit 7) of the restored status register set. -/
theorem C1_round_trip (pxCode pvParameters : Nat) (hc : pxCode < 65536) (hp : pvParameters < 65536) :
    (pxPortInitialiseStack2 (fun _ => 0) 2000 pxCode pvParameters).2 = 1962 ∧
    (retSim2 (c1Restored pxCode pvParameters)).2 = pxCode ∧
    (c1Restored pxCode pvParameters).r24 = pvParameters % 256 ∧
    (c1Restored pxCode pvParameters).r25 = pvParameters / 256 ∧
    Nat.testBit (c1Restored pxCode pvParameters).sreg 7 = true := by
  have htcb : (c1Boot pxCode pvParameters).tcb = 5000 := rfl
  obtain ⟨lsp, lmem, lsreg, ltcb⟩ :=
    restLoad_fields (c1Boot pxCode pvParameters) (by rw [htcb]; omega)
  rw [htcb] at lsp
  have hm0 : (c1Boot pxCode pvParameters).mem 5000 = 170 := by
    simp only [c1Boot, pxPortInitialiseStack2]
    rw [wr_apply, if_neg (by omega), wr_apply, if_pos (by omega)]
    try omega
  have hm1 : (c1Boot pxCode pvParameters).mem 5001 = 7 := by
    simp only [c1Boot, pxPortInitialiseStack2]
    rw [wr_apply, if_pos (by omega)]
    try omega
  rw [hm0, hm1] at lsp
  have lsp2 : (restLoadProg.foldl execRest (c1Boot pxCode pvParameters)).sp = 1962 := by
    rw [lsp]
  obtain ⟨hr31, hr30, hr29, hr28, hr27, hr26, hr25, hr24, hr23, hr22, hr21, hr20, hr19,
         hr18, hr17, hr16, hr15, hr14, hr13, hr12, hr11, hr10, hr9, hr8, hr7, hr6, hr5,
         hr4, hr3, hr2, hr1, hr0, hsr, hps, hpm, hpt⟩ :=
    restPops2_fields (restLoadProg.foldl execRest (c1Boot pxCode pvParameters))
  have hsplit : c1Restored pxCode pvParameters
      = restPopProg2.foldl execRest (restLoadProg.foldl execRest (c1Boot pxCode pvParameters)) := by
    simp [c1Restored, portRESTORE_CONTEXT2, List.foldl_append]
  have hb24 : (c1Boot pxCode pvParameters).mem 1970 = pvParameters % 65536 % 256 := by
    simp only [c1Boot, pxPortInitialiseStack2, wrList_cons, wrList_nil]
    repeat (rw [wr_apply]; rw [if_neg (by omega)])
    rw [wr_apply, if_pos (by omega)]
  have hb25 : (c1Boot pxCode pvParameters).mem 1969 = pvParameters % 65536 / 256 % 256 := by
    simp only [c1Boot, pxPortInitialiseStack2, wrList_cons, wrList_nil]
    repeat (rw [wr_apply]; rw [if_neg (by omega)])
    rw [wr_apply, if_pos (by omega)]
  have hbfl : (c1Boot pxCode pvParameters).mem 1994 = portFLAGS_INT_ENABLED := by
    simp only [c1Boot, pxPortInitialiseStack2, wrList_cons, wrList_nil]
    repeat (rw [wr_apply]; rw [if_neg (by omega)])
    rw [wr_apply, if_pos (by omega)]
  have hbhi : (c1Boot pxCode pvParameters).mem 1996 = pxCode % 65536 / 256 % 256 := by
    simp only [c1Boot, pxPortInitialiseStack2, wrList_cons, wrList_nil]
    repeat (rw [wr_apply]; rw [if_neg (by omega)])
    rw [wr_apply, if_pos (by omega)]
  have hblo : (c1Boot pxCode pvParameters).mem 1997 = pxCode % 65536 % 256 := by
    simp only [c1Boot, pxPortInitialiseStack2, wrList_cons, wrList_nil]
    repeat (rw [wr_apply]; rw [if_neg (by omega)])
    rw [wr_apply, if_pos (by omega)]
  refine ⟨rfl, ?_, ?_, ?_, ?_⟩
  · simp only [retSim2, hsplit, hpm, hps, lmem, lsp2]
    norm_num
    rw [hblo, hbhi]
    omega
  · simp only [hsplit, hr24, lmem, lsp2]
    norm_num
    rw [hb24]
    try omega
  · simp only [hsplit, hr25, lmem, lsp2]
    norm_num
    rw [hb25]
    try omega
  · simp only [hsplit, hsr, lmem, lsp2]
    norm_num
    rw [hbfl]
    simp only [portFLAGS_INT_ENABLED]
    decide

theorem C1_round_trip_witness :
    (retSim2 (c1Restored 4660 43981)).2 = 4660 :=
  (C1_round_trip 4660 43981 (by decide) (by decide)).2.1

/-- Claim C2: for both addressing-width variants, the byte sequence the
stack-frame builder writes below the return-address bytes (33 bytes for a
2-byte PC, 35 for a 3-byte PC, matching the builder's pointer adjustment
and the save sequence's stack consumption) is byte-for-byte what
portSAVE_CONTEXT would push for a running task whose machine state holds
the builder's values, so the first restore of a never-run task is
indistinguishable from the restore of a previously saved one. -/
theorem C2_frame_matches_save (pxCode pvParameters : Nat) :
    (pxPortInitialiseStack2 (fun _ => 0) 2000 pxCode pvParameters).2 = 2000 - 38 ∧
    (portSAVE_CONTEXT2 (freshMach pvParameters 3000 5000)).sp = 3000 - 33 ∧
    (∀ k, k ≤ 32 →
      (pxPortInitialiseStack2 (fun _ => 0) 2000 pxCode pvParameters).1 (1995 - k)
        = (portSAVE_CONTEXT2 (freshMach pvParameters 3000 5000)).mem (3000 - k)) ∧
    (pxPortInitialiseStack3 (fun _ => 0) 2000 pxCode pvParameters).2 = 2000 - 41 ∧
    (portSAVE_CONTEXT3 (freshMach pvParameters 3000 5000)).sp = 3000 - 35 ∧
    (∀ k, k ≤ 34 →
      (pxPortInitialiseStack3 (fun _ => 0) 2000 pxCode pvParameters).1 (1994 - k)
        = (portSAVE_CONTEXT3 (freshMach pvParameters 3000 5000)).mem (3000 - k)) := by
  have hfsp : (freshMach pvParameters 3000 5000).sp = 3000 := rfl
  have hftcb : (freshMach pvParameters 3000 5000).tcb = 5000 := rfl
  have hread2 := save2_mem_push (freshMach pvParameters 3000 5000)
      (by rw [hfsp]; omega) (by rw [hftcb]; omega) (by rw [hfsp, hftcb]; omega)
  rw [hfsp] at hread2
  have hread3 := save3_mem_push (freshMach pvParameters 3000 5000)
      (by rw [hfsp]; omega) (by rw [hftcb]; omega) (by rw [hfsp, hftcb]; omega)
  rw [hfsp] at hread3
  refine ⟨rfl, ?_, ?_, rfl, ?_, ?_⟩
  · rw [save2_sp, hfsp]
  · intro k hk
    rw [hread2 k hk]
    simp only [pxPortInitialiseStack2, wrList_cons, wrList_nil]
    interval_cases k <;>
      (simp only [pushedVal2, freshMach]
       repeat (rw [wr_apply]; rw [if_neg (by omega)])
       rw [wr_apply, if_pos (by omega)])
  · rw [save3_sp, hfsp]
  · intro k hk
    rw [hread3 k hk]
    simp only [pxPortInitialiseStack3, wrList_cons, wrList_nil]
    interval_cases k <;>
      (simp only [pushedVal3, freshMach]
       repeat (rw [wr_apply]; rw [if_neg (by omega)])
       rw [wr_apply, if_pos (by omega)])

theorem C2_frame_matches_save_witness :
    (pxPortInitialiseStack2 (fun _ => 0) 2000 4660 43981).1 (1995 - 25)
      = (portSAVE_CONTEXT2 (freshMach 43981 3000 5000)).mem (3000 - 25) :=
  (C2_frame_matches_save 4660 43981).2.2.1 25 (by decide)

/-- Claim C3: in both portSAVE_CONTEXT instruction sequences the status
register is captured into the scratch register at index 1, the cli
instruction is the very next instruction (index 2), and every push of a
general-purpose register r2 through r31 occurs strictly after the cli;
consequently the saved flags byte (second pushed byte, at address sp - 1)
equals the pre-save status register, interrupt-enable bit included. -/
theorem C3_save_ordering (σ : Mach) (h1 : 33 ≤ σ.sp)
    (h3 : σ.tcb + 1 < 65536) (h4 : σ.sp < σ.tcb ∨ σ.tcb + 33 < σ.sp) :
    (∀ i : Fin saveProg2.length, saveProg2.get i = SaveInstr.inSREG → i.val = 1) ∧
    (∀ i : Fin saveProg2.length, saveProg2.get i = SaveInstr.cli → i.val = 2) ∧
    (∀ i : Fin saveProg2.length, isGPRpush (saveProg2.get i) = true → 2 < i.val) ∧
    (∀ i : Fin saveProg3.length, saveProg3.get i = SaveInstr.inSREG → i.val = 1) ∧
    (∀ i : Fin saveProg3.length, saveProg3.get i = SaveInstr.cli → i.val = 2) ∧
    (∀ i : Fin saveProg3.length, isGPRpush (saveProg3.get i) = true → 2 < i.val) ∧
    (portSAVE_CONTEXT2 σ).mem (σ.sp - 1) = σ.sreg := by
  refine ⟨by decide, by decide, by decide, by decide, by decide, by decide, ?_⟩
  have := save2_mem_push σ h1 h3 h4 1 (by omega)
  simpa [pushedVal2] using this

theorem C3_save_ordering_witness :
    (portSAVE_CONTEXT2 σw).mem (σw.sp - 1) = σw.sreg :=
  (C3_save_ordering σw (by decide) (by decide) (by decide)).2.2.2.2.2.2

/-- Claim C4: for every initial processor state (with a well-formed stack
pointer and a TCB stack-pointer field outside the 33-byte save window),
portSAVE_CONTEXT followed immediately by portRESTORE_CONTEXT with the same
pxCurrentTCB reproduces all 32 general registers, the status register and
the stack pointer byte for byte. -/
theorem C4_save_restore_symmetry (σ : Mach) (h1 : 33 ≤ σ.sp) (h2 : σ.sp < 65536)
    (h3 : σ.tcb + 1 < 65536) (h4 : σ.sp < σ.tcb ∨ σ.tcb + 33 < σ.sp)
    (h5 : σ.sreg < 256) :
    (∀ n, n < 32 → regVal (portRESTORE_CONTEXT2 (portSAVE_CONTEXT2 σ)) n = regVal σ n) ∧
    (portRESTORE_CONTEXT2 (portSAVE_CONTEXT2 σ)).sreg = σ.sreg ∧
    (portRESTORE_CONTEXT2 (portSAVE_CONTEXT2 σ)).sp = σ.sp := by
  obtain ⟨hlo, hhi, hssp, htcb⟩ := save2_tcbmem σ h3
  have hread := save2_mem_push σ h1 h3 h4
  have hsplit : portRESTORE_CONTEXT2 (portSAVE_CONTEXT2 σ)
      = restPopProg2.foldl execRest (restLoadProg.foldl execRest (portSAVE_CONTEXT2 σ)) := by
    simp [portRESTORE_CONTEXT2, List.foldl_append]
  have h3x : (portSAVE_CONTEXT2 σ).tcb + 1 < 65536 := by rw [htcb]; exact h3
  obtain ⟨lsp, lmem, lsreg, ltcb⟩ := restLoad_fields (portSAVE_CONTEXT2 σ) h3x
  rw [htcb, hlo, hhi] at lsp
  have lsp2 : (restLoadProg.foldl execRest (portSAVE_CONTEXT2 σ)).sp = σ.sp - 33 := by
    rw [lsp]; omega
  obtain ⟨hr31, hr30, hr29, hr28, hr27, hr26, hr25, hr24, hr23, hr22, hr21, hr20, hr19, hr18, hr17, hr16, hr15, hr14, hr13, hr12, hr11, hr10, hr9, hr8, hr7, hr6, hr5, hr4, hr3, hr2, hr1, hr0, hsr, hps, hpm, hpt⟩ :=
    restPops2_fields (restLoadProg.foldl execRest (portSAVE_CONTEXT2 σ))
  refine ⟨?_, ?_, ?_⟩
  · intro n hn
    interval_cases n
    · rw [hsplit]
      simp only [regVal]
      rw [hr0, lmem, lsp2, show σ.sp - 33 + 33 = σ.sp - 0 from by omega,
          hread 0 (by omega)]
      simp only [pushedVal2]
    · rw [hsplit]
      simp only [regVal]
      rw [hr1, lmem, lsp2, show σ.sp - 33 + 31 = σ.sp - 2 from by omega,
          hread 2 (by omega)]
      simp only [pushedVal2]
    · rw [hsplit]
      simp only [regVal]
      rw [hr2, lmem, lsp2, show σ.sp - 33 + 30 = σ.sp - 3 from by omega,
          hread 3 (by omega)]
      simp only [pushedVal2]
    · rw [hsplit]
      simp only [regVal]
      rw [hr3, lmem, lsp2, show σ.sp - 33 + 29 = σ.sp - 4 from by omega,
          hread 4 (by omega)]
      simp only [pushedVal2]
    · rw [hsplit]
      simp only [regVal]
      rw [hr4, lmem, lsp2, show σ.sp - 33 + 28 = σ.sp - 5 from by omega,
          hread 5 (by omega)]
      simp only [pushedVal2]
    · rw [hsplit]
      simp only [regVal]
      rw [hr5, lmem, lsp2, show σ.sp - 33 + 27 = σ.sp - 6 from by omega,
          hread 6 (by omega)]
      simp only [pushedVal2]
    · rw [hsplit]
      simp only [regVal]
      rw [hr6, lmem, lsp2, show σ.sp - 33 + 26 = σ.sp - 7 from by omega,
          hread 7 (by omega)]
      simp only [pushedVal2]
    · rw [hsplit]
      simp only [regVal]
      rw [hr7, lmem, lsp2, show σ.sp - 33 + 25 = σ.sp - 8 from by omega,
          hread 8 (by omega)]
      simp only [pushedVal2]
    · rw [hsplit]
      simp only [regVal]
      rw [hr8, lmem, lsp2, show σ.sp - 33 + 24 = σ.sp - 9 from by omega,
          hread 9 (by omega)]
      simp only [pushedVal2]
    · rw [hsplit]
      simp only [regVal]
      rw [hr9, lmem, lsp2, show σ.sp - 33 + 23 = σ.sp - 10 from by omega,
          hread 10 (by omega)]
      simp only [pushedVal2]
    · rw [hsplit]
      simp only [regVal]
      rw [hr10, lmem, lsp2, show σ.sp - 33 + 22 = σ.sp - 11 from by omega,
          hread 11 (by omega)]
      simp only [pushedVal2]
    · rw [hsplit]
      simp only [regVal]
      rw [hr11, lmem, lsp2, show σ.sp - 33 + 21 = σ.sp - 12 from by omega,
          hread 12 (by omega)]
      simp only [pushedVal2]
    · rw [hsplit]
      simp only [regVal]
      rw [hr12, lmem, lsp2, show σ.sp - 33 + 20 = σ.sp - 13 from by omega,
          hread 13 (by omega)]
      simp only [pushedVal2]
    · rw [hsplit]
      simp only [regVal]
      rw [hr13, lmem, lsp2, show σ.sp - 33 + 19 = σ.sp - 14 from by omega,
          hread 14 (by omega)]
      simp only [pushedVal2]
    · rw [hsplit]
      simp only [regVal]
      rw [hr14, lmem, lsp2, show σ.sp - 33 + 18 = σ.sp - 15 from by omega,
          hread 15 (by omega)]
      simp only [pushedVal2]
    · rw [hsplit]
      simp only [regVal]
      rw [hr15, lmem, lsp2, show σ.sp - 33 + 17 = σ.sp - 16 from by omega,
          hread 16 (by omega)]
      simp only [pushedVal2]
    · rw [hsplit]
      simp only [regVal]
      rw [hr16, lmem, lsp2, show σ.sp - 33 + 16 = σ.sp - 17 from by omega,
          hread 17 (by omega)]
      simp only [pushedVal2]
    · rw [hsplit]
      simp only [regVal]
      rw [hr17, lmem, lsp2, show σ.sp - 33 + 15 = σ.sp - 18 from by omega,
          hread 18 (by omega)]
      simp only [pushedVal2]
    · rw [hsplit]
      simp only [regVal]
      rw [hr18, lmem, lsp2, show σ.sp - 33 + 14 = σ.sp - 19 from by omega,
          hread 19 (by omega)]
      simp only [pushedVal2]
    · rw [hsplit]
      simp only [regVal]
      rw [hr19, lmem, lsp2, show σ.sp - 33 + 13 = σ.sp - 20 from by omega,
          hread 20 (by omega)]
      simp only [pushedVal2]
    · rw [hsplit]
      simp only [regVal]
      rw [hr20, lmem, lsp2, show σ.sp - 33 + 12 = σ.sp - 21 from by omega,
          hread 21 (by omega)]
      simp only [pushedVal2]
    · rw [hsplit]
      simp only [regVal]
      rw [hr21, lmem, lsp2, show σ.sp - 33 + 11 = σ.sp - 22 from by omega,
          hread 22 (by omega)]
      simp only [pushedVal2]
    · rw [hsplit]
      simp only [regVal]
      rw [hr22, lmem, lsp2, show σ.sp - 33 + 10 = σ.sp - 23 from by omega,
          hread 23 (by omega)]
      simp only [pushedVal2]
    · rw [hsplit]
      simp only [regVal]
      rw [hr23, lmem, lsp2, show σ.sp - 33 + 9 = σ.sp - 24 from by omega,
          hread 24 (by omega)]
      simp only [pushedVal2]
    · rw [hsplit]
      simp only [regVal]
      rw [hr24, lmem, lsp2, show σ.sp - 33 + 8 = σ.sp - 25 from by omega,
          hread 25 (by omega)]
      simp only [pushedVal2]
    · rw [hsplit]
      simp only [regVal]
      rw [hr25, lmem, lsp2, show σ.sp - 33 + 7 = σ.sp - 26 from by omega,
          hread 26 (by omega)]
      simp only [pushedVal2]
    · rw [hsplit]
      simp only [regVal]
      rw [hr26, lmem, lsp2, show σ.sp - 33 + 6 = σ.sp - 27 from by omega,
          hread 27 (by omega)]
      simp only [pushedVal2]
    · rw [hsplit]
      simp only [regVal]
      rw [hr27, lmem, lsp2, show σ.sp - 33 + 5 = σ.sp - 28 from by omega,
          hread 28 (by omega)]
      simp only [pushedVal2]
    · rw [hsplit]
      simp only [regVal]
      rw [hr28, lmem, lsp2, show σ.sp - 33 + 4 = σ.sp - 29 from by omega,
          hread 29 (by omega)]
      simp only [pushedVal2]
    · rw [hsplit]
      simp only [regVal]
      rw [hr29, lmem, lsp2, show σ.sp - 33 + 3 = σ.sp - 30 from by omega,
          hread 30 (by omega)]
      simp only [pushedVal2]
    · rw [hsplit]
      simp only [regVal]
      rw [hr30, lmem, lsp2, show σ.sp - 33 + 2 = σ.sp - 31 from by omega,
          hread 31 (by omega)]
      simp only [pushedVal2]
    · rw [hsplit]
      simp only [regVal]
      rw [hr31, lmem, lsp2, show σ.sp - 33 + 1 = σ.sp - 32 from by omega,
          hread 32 (by omega)]
      simp only [pushedVal2]
  · rw [hsplit, hsr, lmem, lsp2, show σ.sp - 33 + 32 = σ.sp - 1 from by omega,
        hread 1 (by omega)]
    simp only [pushedVal2]
    omega
  · rw [hsplit, hps, lsp2]
    omega

/-- Claim C5: the compare-match configurator reports the achieved tick
rate as clock / (prescaler * (compare_value + 1)) whenever the compare
computation is in the 8-bit range, and in the spec scenario (16 MHz clock,
1000 Hz requested, prescaler 1024) loads the compare register with 14 and
sets portTickRateHz to 1041, not the requested 1000. -/
theorem C5_achieved_tick_rate (clock rate : Nat) (hr : 1 ≤ rate)
    (h1 : 1 ≤ ulCompareMatch clock rate) (h2 : ulCompareMatch clock rate ≤ 256)
    (hclk : clock < 4294967296) :
    (prvSetupTimerInterruptTimer0 clock rate).portTickRateHz
      = clock / (portCLOCK_PRESCALER * ((prvSetupTimerInterruptTimer0 clock rate).ocr + 1)) ∧
    (prvSetupTimerInterruptTimer0 16000000 1000).ocr = 14 ∧
    (prvSetupTimerInterruptTimer0 16000000 1000).portTickRateHz = 1041 := by
  have hcm_le : ulCompareMatch clock rate ≤ clock := by
    simp only [ulCompareMatch, portCLOCK_PRESCALER]
    exact le_trans (Nat.div_le_self _ _) (Nat.div_le_self _ _)
  have hocr : (prvSetupTimerInterruptTimer0 clock rate).ocr + 1 = ulCompareMatch clock rate := by
    simp only [prvSetupTimerInterruptTimer0]
    omega
  refine ⟨?_, by decide, by decide⟩
  rw [hocr]
  simp only [prvSetupTimerInterruptTimer0]

/-- Claim C6: in a cooperative build the timer ISR performs only the
xTaskIncrementTick call and never invokes vTaskSwitchContext, whatever the
tick call returns; in a preemptive build, vPortYieldFromTick (and the ISR
wrapping it) invokes vTaskSwitchContext exactly when xTaskIncrementTick
returns a value other than pdFALSE. -/
theorem C6_preemption_gating :
    (∀ r : Int, schedulerISRCooperative r = [KernelCall.incTick]) ∧
    (∀ r : Int, KernelCall.switchCtx ∉ schedulerISRCooperative r) ∧
    (∀ r : Int, KernelCall.switchCtx ∈ vPortYieldFromTickCalls r ↔ r ≠ pdFALSE) ∧
    (∀ r : Int, KernelCall.switchCtx ∈ schedulerISRPreemptive r ↔ r ≠ pdFALSE) := by
  refine ⟨fun r => rfl, ?_, ?_, ?_⟩
  · intro r
    simp [schedulerISRCooperative]
  · intro r
    by_cases h : r = pdFALSE <;>
      simp [vPortYieldFromTickCalls, h]
  · intro r
    by_cases h : r = pdFALSE <;>
      simp [schedulerISRPreemptive, vPortYieldFromTickCalls, h]

/-- Claim C7: for every compare-match configuration whose compare
computation is in range, the byte written to the 8-bit compare register is
representable (the computation truncates to 8 bits), the reported rate is
at least the requested rate, and their difference is bounded by the gap
between the two adjacent rates representable with the 1024 prescaler —
the quantization error of the 8-bit compare register. -/
theorem C7_tick_quantization (clock rate : Nat) (hr : 1 ≤ rate)
    (h1 : 1 ≤ ulCompareMatch clock rate) (h2 : ulCompareMatch clock rate ≤ 256)
    (hclk : clock < 4294967296) :
    (prvSetupTimerInterruptTimer0 clock rate).ocr < 256 ∧
    (prvSetupTimerInterruptTimer0 clock rate).ocr + 1 = ulCompareMatch clock rate ∧
    rate ≤ (prvSetupTimerInterruptTimer0 clock rate).portTickRateHz ∧
    (prvSetupTimerInterruptTimer0 clock rate).portTickRateHz - rate
      ≤ clock / (portCLOCK_PRESCALER * ulCompareMatch clock rate)
        - clock / (portCLOCK_PRESCALER * (ulCompareMatch clock rate + 1)) := by
  have hcm_le0 : ulCompareMatch clock rate ≤ clock := by
    simp only [ulCompareMatch, portCLOCK_PRESCALER]
    exact le_trans (Nat.div_le_self _ _) (Nat.div_le_self _ _)
  have hocr : (prvSetupTimerInterruptTimer0 clock rate).ocr + 1 = ulCompareMatch clock rate := by
    simp only [prvSetupTimerInterruptTimer0]
    omega
  have hq2 : clock < rate * (clock / rate + 1) := by
    have ha := Nat.div_add_mod clock rate
    have hb : clock % rate < rate := Nat.mod_lt _ (by omega)
    have hc : rate * (clock / rate + 1) = rate * (clock / rate) + rate := Nat.mul_succ _ _
    omega
  have hcm_le : 1024 * ulCompareMatch clock rate ≤ clock / rate := by
    simp only [ulCompareMatch, portCLOCK_PRESCALER]
    omega
  have hcm_gt : clock / rate < 1024 * (ulCompareMatch clock rate + 1) := by
    simp only [ulCompareMatch, portCLOCK_PRESCALER]
    omega
  have hpos : 0 < 1024 * ulCompareMatch clock rate := by omega
  have hrate_le : rate ≤ clock / (1024 * ulCompareMatch clock rate) := by
    rw [Nat.le_div_iff_mul_le hpos]
    exact le_trans (Nat.mul_le_mul_left rate hcm_le)
      (by rw [Nat.mul_comm]; exact Nat.div_mul_le_self clock rate)
  have hlow1 : clock / (1024 * (ulCompareMatch clock rate + 1)) ≤ clock / (clock / rate + 1) :=
    Nat.div_le_div_left (by omega) (by omega)
  have hlow2 : clock / (clock / rate + 1) < rate := by
    rw [Nat.div_lt_iff_lt_mul (by omega)]
    exact hq2
  have hA : (prvSetupTimerInterruptTimer0 clock rate).portTickRateHz
      = clock / (1024 * ulCompareMatch clock rate) := by
    simp only [prvSetupTimerInterruptTimer0, ulCompareMatch, portCLOCK_PRESCALER]
  refine ⟨by simp only [prvSetupTimerInterruptTimer0]; omega, hocr, ?_, ?_⟩
  · rw [hA]; exact hrate_le
  · rw [hA]
    simp only [portCLOCK_PRESCALER]
    omega

/-- Claim C8: for every prescale value, the watchdog configuration byte
that wdt_interrupt_enable writes last (and which prvSetupTimerInterrupt
installs) has the interrupt-enable bit WDIE set and the reset-enable bit
WDE clear, so each recurring watchdog firing raises the tick interrupt
instead of resetting the processor (WDE is set only in the timed-sequence
prelude byte). -/
theorem C8_wdt_interrupt_mode (value cfg wdto : Nat) :
    (wdt_interrupt_enable_writes value).getLast? = some (wdtControlValue value) ∧
    Nat.testBit (wdtControlValue value) WDIE = true ∧
    Nat.testBit (wdtControlValue value) WDE = false ∧
    Nat.testBit wdtPrepValue WDE = true ∧
    (prvSetupTimerInterruptWDTO cfg wdto).wdtFinal = wdtControlValue wdto := by
  refine ⟨rfl, ?_, ?_, by decide, rfl⟩
  · simp only [wdtControlValue, WDIF, WDIE, WDP3, WDE, Nat.testBit_lor, Nat.testBit_land]
    split_ifs <;> simp <;> (left; right; decide)
  · simp only [wdtControlValue, WDIF, WDIE, WDP3, WDE, Nat.testBit_lor, Nat.testBit_land]
    split_ifs <;> simp <;> exact ⟨by decide, fun _ => by decide⟩

/-- Claim C9: both tick-source configurators initialize
ticksRemainingInSec to the achieved tick rate portTickRateHz, and the
spec-modelled per-tick update decrements the counter by one and resets it
to the tick frequency each time it reaches zero. -/
theorem C9_ticks_remaining_counter (cfg wdto clock rate r remaining : Nat) :
    (prvSetupTimerInterruptWDTO cfg wdto).ticksRemainingInSec
      = (prvSetupTimerInterruptWDTO cfg wdto).portTickRateHz ∧
    (prvSetupTimerInterruptTimer0 clock rate).ticksRemainingInSec
      = (prvSetupTimerInterruptTimer0 clock rate).portTickRateHz ∧
    (2 ≤ remaining → ticksRemainingStep r remaining = remaining - 1) ∧
    ticksRemainingStep r 1 = r := by
  refine ⟨rfl, rfl, ?_, ?_⟩
  · intro h
    simp only [ticksRemainingStep]
    rw [if_neg (by omega)]
  · simp [ticksRemainingStep]

/-- Claim C10: portSAVE_CONTEXT writes the stack pointer low byte at
offset 0 and high byte at offset 1 of the control block pxCurrentTCB
points to, and the SP-loading prefix of portRESTORE_CONTEXT reads the low
byte from offset 0 and the high byte from offset 1 — save and restore
agree exactly on the field's location and byte order. -/
theorem C10_tcb_sp_field (σ : Mach) (h3 : σ.tcb + 1 < 65536) :
    (portSAVE_CONTEXT2 σ).mem σ.tcb = (portSAVE_CONTEXT2 σ).sp % 256 ∧
    (portSAVE_CONTEXT2 σ).mem (σ.tcb + 1) = (portSAVE_CONTEXT2 σ).sp / 256 % 256 ∧
    portRESTORE_CONTEXT2 σ = restPopProg2.foldl execRest (restLoadProg.foldl execRest σ) ∧
    (restLoadProg.foldl execRest σ).sp = σ.mem σ.tcb % 256 + 256 * (σ.mem (σ.tcb + 1) % 256) := by
  obtain ⟨hlo, hhi, hsp, htcb⟩ := save2_tcbmem σ h3
  obtain ⟨lsp, lmem, lsreg, ltcb⟩ := restLoad_fields σ h3
  refine ⟨?_, ?_, by simp [portRESTORE_CONTEXT2, List.foldl_append], lsp⟩
  · rw [hlo, hsp]
  · rw [hhi, hsp]

theorem C10_tcb_sp_field_witness :
    (portSAVE_CONTEXT2 σw).mem σw.tcb = (portSAVE_CONTEXT2 σw).sp % 256 :=
  (C10_tcb_sp_field σw (by decide)).1

theorem C4_save_restore_symmetry_witness :
    regVal (portRESTORE_CONTEXT2 (portSAVE_CONTEXT2 σw)) 24 = regVal σw 24 :=
  (C4_save_restore_symmetry σw (by decide) (by decide) (by decide) (by decide)
    (by decide)).1 24 (by decide)

theorem C5_achieved_tick_rate_witness :
    (prvSetupTimerInterruptTimer0 16000000 1000).portTickRateHz
      = 16000000 / (portCLOCK_PRESCALER * ((prvSetupTimerInterruptTimer0 16000000 1000).ocr + 1)) :=
  (C5_achieved_tick_rate 16000000 1000 (by decide) (by decide) (by decide) (by decide)).1

theorem C7_tick_quantization_witness :
    1000 ≤ (prvSetupTimerInterruptTimer0 16000000 1000).portTickRateHz :=
  (C7_tick_quantization 16000000 1000 (by decide) (by decide) (by decide) (by decide)).2.2.1

theorem C9_ticks_remaining_counter_witness :
    ticksRemainingStep 1041 7 = 7 - 1 :=
  (C9_ticks_remaining_counter 1000 8 16000000 1000 1041 7).2.2.1 (by decide)

